import Mathlib

/-!
Verification of the override-identity controller in
`src/sip-user-card.ts` (the `SIPUserCard` Lovelace card).

The card is embedded shallowly: the external `sipCore` collaborator's
persisted `ForceUser` slot (backed by localStorage) is modelled as an
explicit field of the card/store state, and the two store side effects
(`sipCore.ForceUser = ...` write and `sipCore.applyForceUser()`), together
with the window event listener add/remove calls, are recorded in an
explicit effect trace.  The live `sipCore.registered` boolean is external
and read fresh at render time, so `render` takes it as a parameter and
the state deliberately keeps no copy of it.
-/

namespace SIPUserCard

/-- The YAML configuration the host hands to `setConfig`
(`SIPUserCardConfig` in the source): `extension` and `password` are
required strings, `display_name` is optional. -/
structure SIPUserCardConfig where
  extension : String
  password : String
  display_name : Option String
deriving Repr, DecidableEq

/-- The persisted forced identity written to `sipCore.ForceUser`
(the localStorage-backed single slot). -/
structure ForceUser where
  extension : String
  password : String
  display_name : Option String
deriving Repr, DecidableEq

/-- The synchronous error thrown by `setConfig` on a missing required
field (`throw new Error(...)` in the source). -/
structure ConfigurationError where
  message : String
deriving Repr, DecidableEq

/-- Observable side effects of the card on its collaborators: a store
write of a full `ForceUser` record, a `sipCore.applyForceUser()` call,
and the `window.addEventListener` / `removeEventListener` calls for the
instance's `updateHandler`. -/
inductive Effect where
  | write (fu : ForceUser)
  | applyForceUser
  | addListener
  | removeListener
deriving Repr, DecidableEq

/-- The state of one card instance together with the device-wide store
slot it manipulates.  `config` is the card's local `this.config`
(`@state private config`), `forceUser` is the persisted
`sipCore.ForceUser` slot, `subscribed` records whether this instance's
`updateHandler` is currently registered on `window`, and
`pendingRender` records a scheduled re-render (`this.requestUpdate()`).
There is no cached registration flag: `sipCore.registered` is read live
at render time. -/
structure CardState where
  config : Option SIPUserCardConfig
  forceUser : Option ForceUser
  subscribed : Bool
  pendingRender : Bool
deriving Repr, DecidableEq

/-- The change guard computed inside `setConfig`:
`!currentForceUser || currentForceUser.extension !== config.extension ||
currentForceUser.password !== config.password`. -/
def configChanged (currentForceUser : Option ForceUser)
    (config : SIPUserCardConfig) : Bool :=
  match currentForceUser with
  | none => true
  | some fu =>
      fu.extension != config.extension || fu.password != config.password

/-- `setConfig` from the source.  Validates the required fields (an empty
string is falsy in the source's `!config.extension` test), then writes
the store and calls `applyForceUser` only when the credentials changed,
and finally records the config locally (`this.config = config`).  The
thrown error carries no new state and no effects: in the source the
throws precede every mutation. -/
def setConfig (config : SIPUserCardConfig) (s : CardState) :
    Except ConfigurationError (CardState × List Effect) :=
  if config.extension = "" then
    Except.error ⟨"sip-user-card: \x27extension\x27 is required"⟩
  else if config.password = "" then
    Except.error ⟨"sip-user-card: \x27password\x27 is required"⟩
  else
    if configChanged s.forceUser config then
      let fu : ForceUser :=
        ⟨config.extension, config.password, config.display_name⟩
      Except.ok ({ s with forceUser := some fu, config := some config },
        [Effect.write fu, Effect.applyForceUser])
    else
      Except.ok ({ s with config := some config }, [])

/-- The state after a `setConfig` call, under the source's exception
semantics: a throw propagates to the host and leaves both the instance
and the store unmodified. -/
def setConfigState (config : SIPUserCardConfig) (s : CardState) :
    CardState :=
  match setConfig config s with
  | Except.ok (s', _) => s'
  | Except.error _ => s

/-- The effects emitted by a `setConfig` call; a throwing call emits
none. -/
def setConfigEffects (config : SIPUserCardConfig) (s : CardState) :
    List Effect :=
  match setConfig config s with
  | Except.ok (_, eff) => eff
  | Except.error _ => []

/-- `getStubConfig` from the source. -/
def getStubConfig : SIPUserCardConfig :=
  ⟨"100", "mypassword", some "Front Door Panel"⟩

/-- `connectedCallback`: registers `this.updateHandler` on the
`sipcore-update` window channel. -/
def connectedCallback (s : CardState) : CardState × List Effect :=
  ({ s with subscribed := true }, [Effect.addListener])

/-- `disconnectedCallback`: removes the listener; the credentials remain
in localStorage (the source touches neither `sipCore.ForceUser` nor
`applyForceUser` here). -/
def disconnectedCallback (s : CardState) : CardState × List Effect :=
  ({ s with subscribed := false }, [Effect.removeListener])

/-- `updateHandler`: the instance's arrow-function listener; it only
calls `this.requestUpdate()`, i.e. schedules a re-render. -/
def updateHandler (s : CardState) : CardState :=
  { s with pendingRender := true }

/-- Dispatch of the zero-payload `sipcore-update` window event: the
handler runs exactly when this instance is currently subscribed. -/
def dispatchSipcoreUpdate (s : CardState) : CardState :=
  if s.subscribed then updateHandler s else s

/-- The semantic content of the rendered template: the status dot's CSS
class, the resolved display name, the resolved extension, and the full
status line text. -/
structure RenderView where
  dot : String
  name : String
  ext : String
  text : String
deriving Repr, DecidableEq

/-- `render` from the source.  `registered` is `sipCore.registered`,
read live at render time; `ext = this.config?.extension ?? "?"` and
`name = this.config?.display_name ?? ext`. -/
def render (s : CardState) (registered : Bool) : RenderView :=
  let ext : String :=
    match s.config with
    | some c => c.extension
    | none => "?"
  let name : String :=
    match s.config with
    | some c =>
        match c.display_name with
        | some n => n
        | none => ext
    | none => ext
  { dot := if registered then "registered" else "unregistered"
    name := name
    ext := ext
    text := name ++ " (" ++ ext ++ ") — " ++
      (if registered then "Registered" else "Unregistered") }

/-- `getCardSize` from the source: a zero-height layout hint. -/
def getCardSize : Nat := 0

/-- A lifecycle step of the instance: host attaches or detaches the
element. -/
inductive Lifecycle where
  | connect
  | disconnect
deriving Repr, DecidableEq

/-- One lifecycle callback invocation. -/
def lifecycleStep (s : CardState) : Lifecycle → CardState × List Effect
  | Lifecycle.connect => connectedCallback s
  | Lifecycle.disconnect => disconnectedCallback s

/-- A sequence of lifecycle callbacks, with the concatenated effect
trace. -/
def runLifecycle (s : CardState) :
    List Lifecycle → CardState × List Effect
  | [] => (s, [])
  | op :: ops =>
      let p := lifecycleStep s op
      let q := runLifecycle p.1 ops
      (q.1, p.2 ++ q.2)

/-- Number of store writes in an effect trace. -/
def countWrites (effs : List Effect) : Nat :=
  (effs.filter fun e =>
    match e with
    | Effect.write _ => true
    | _ => false).length

/-- Number of `applyForceUser` calls in an effect trace. -/
def countApplies (effs : List Effect) : Nat :=
  (effs.filter fun e =>
    match e with
    | Effect.applyForceUser => true
    | _ => false).length

/-- Number of `addEventListener` calls in an effect trace. -/
def countAdds (effs : List Effect) : Nat :=
  (effs.filter fun e =>
    match e with
    | Effect.addListener => true
    | _ => false).length

/-- Number of `removeEventListener` calls in an effect trace. -/
def countRemoves (effs : List Effect) : Nat :=
  (effs.filter fun e =>
    match e with
    | Effect.removeListener => true
    | _ => false).length

/-- Number of connect steps in a lifecycle sequence. -/
def countConnects (ops : List Lifecycle) : Nat :=
  (ops.filter fun op =>
    match op with
    | Lifecycle.connect => true
    | _ => false).length

/-- Number of disconnect steps in a lifecycle sequence. -/
def countDisconnects (ops : List Lifecycle) : Nat :=
  (ops.filter fun op =>
    match op with
    | Lifecycle.disconnect => true
    | _ => false).length

/-- A card/store state with no stored identity and no local config. -/
def emptyState : CardState := ⟨none, none, false, false⟩

/-- A state whose store slot already holds extension 100 / password pw. -/
def storedState : CardState := ⟨none, some ⟨"100", "pw", none⟩, false, false⟩

/-- A state whose local config is set (no display name) and whose store
slot is empty. -/
def configuredState : CardState := ⟨some ⟨"100", "pw", none⟩, none, false, false⟩

/-- A state with an active subscription. -/
def subscribedState : CardState := ⟨none, none, true, false⟩

section Helpers

/-- On a valid config, `setConfig` reduces to the change-guarded branch. -/
theorem setConfig_ok_of_valid (c : SIPUserCardConfig) (s : CardState)
    (hext : c.extension ≠ "") (hpw : c.password ≠ "") :
    setConfig c s =
      if configChanged s.forceUser c then
        Except.ok ({ s with
            forceUser := some ⟨c.extension, c.password, c.display_name⟩,
            config := some c },
          [Effect.write ⟨c.extension, c.password, c.display_name⟩,
           Effect.applyForceUser])
      else
        Except.ok ({ s with config := some c }, []) := by
  simp [setConfig, hext, hpw]

/-- Valid config, credentials changed: one write then one apply. -/
theorem setConfig_ok_changed (c : SIPUserCardConfig) (s : CardState)
    (hext : c.extension ≠ "") (hpw : c.password ≠ "")
    (hch : configChanged s.forceUser c = true) :
    setConfig c s =
      Except.ok ({ s with
          forceUser := some ⟨c.extension, c.password, c.display_name⟩,
          config := some c },
        [Effect.write ⟨c.extension, c.password, c.display_name⟩,
         Effect.applyForceUser]) := by
  rw [setConfig_ok_of_valid c s hext hpw, if_pos hch]

/-- Valid config, credentials unchanged: only the local config is
recorded, no effects. -/
theorem setConfig_ok_unchanged (c : SIPUserCardConfig) (s : CardState)
    (hext : c.extension ≠ "") (hpw : c.password ≠ "")
    (hch : configChanged s.forceUser c = false) :
    setConfig c s = Except.ok ({ s with config := some c }, []) := by
  rw [setConfig_ok_of_valid c s hext hpw, if_neg (by simp [hch])]

/-- The change guard is false exactly when the stored identity exists
and matches the incoming credentials. -/
theorem configChanged_false_iff (cur : Option ForceUser)
    (c : SIPUserCardConfig) :
    configChanged cur c = false ↔
      ∃ fu, cur = some fu ∧ fu.extension = c.extension ∧
        fu.password = c.password := by
  cases cur with
  | none => simp [configChanged]
  | some fu => simp [configChanged]

/-- The change guard is true exactly when no identity is stored or a
credential differs. -/
theorem configChanged_true_iff (cur : Option ForceUser)
    (c : SIPUserCardConfig) :
    configChanged cur c = true ↔
      (cur = none ∨ ∃ fu, cur = some fu ∧
        (fu.extension ≠ c.extension ∨ fu.password ≠ c.password)) := by
  cases cur with
  | none => simp [configChanged]
  | some fu => simp [configChanged]

/-- An invalid config makes `setConfig` throw, naming the first missing
field. -/
theorem setConfig_eq_error (s : CardState) (c : SIPUserCardConfig)
    (h : c.extension = "" ∨ c.password = "") :
    setConfig c s =
      Except.error (if c.extension = "" then
          ⟨"sip-user-card: \x27extension\x27 is required"⟩
        else
          ⟨"sip-user-card: \x27password\x27 is required"⟩) := by
  by_cases he : c.extension = ""
  · simp [setConfig, he]
  · have hpw : c.password = "" := h.resolve_left he
    simp [setConfig, he, hpw]

/-- A throwing `setConfig` leaves the whole state unchanged. -/
theorem setConfigState_of_invalid (s : CardState) (c : SIPUserCardConfig)
    (h : c.extension = "" ∨ c.password = "") :
    setConfigState c s = s := by
  simp [setConfigState, setConfig_eq_error s c h]

/-- A throwing `setConfig` emits no effects. -/
theorem setConfigEffects_of_invalid (s : CardState) (c : SIPUserCardConfig)
    (h : c.extension = "" ∨ c.password = "") :
    setConfigEffects c s = [] := by
  simp [setConfigEffects, setConfig_eq_error s c h]

/-- Any valid `setConfig` records the incoming config locally. -/
theorem setConfigState_config (c : SIPUserCardConfig) (s : CardState)
    (hext : c.extension ≠ "") (hpw : c.password ≠ "") :
    (setConfigState c s).config = some c := by
  rw [setConfigState, setConfig_ok_of_valid c s hext hpw]
  by_cases hch : configChanged s.forceUser c = true <;> simp [hch]

/-- Listener-add counts are additive over trace concatenation. -/
theorem countAdds_append (l1 l2 : List Effect) :
    countAdds (l1 ++ l2) = countAdds l1 + countAdds l2 := by
  simp [countAdds, List.filter_append]

/-- Listener-removal counts are additive over trace concatenation. -/
theorem countRemoves_append (l1 l2 : List Effect) :
    countRemoves (l1 ++ l2) = countRemoves l1 + countRemoves l2 := by
  simp [countRemoves, List.filter_append]

/-- Lifecycle traces contain one listener add per connect step. -/
theorem runLifecycle_countAdds (s : CardState) (ops : List Lifecycle) :
    countAdds (runLifecycle s ops).2 = countConnects ops := by
  induction ops generalizing s with
  | nil => rfl
  | cons op ops ih =>
    cases op with
    | connect =>
      simp only [runLifecycle, lifecycleStep, connectedCallback,
        countAdds_append, ih]
      simp [countAdds, countConnects]
      omega
    | disconnect =>
      simp only [runLifecycle, lifecycleStep, disconnectedCallback,
        countAdds_append, ih]
      simp [countAdds, countConnects]

/-- Lifecycle traces contain one listener removal per disconnect step. -/
theorem runLifecycle_countRemoves (s : CardState) (ops : List Lifecycle) :
    countRemoves (runLifecycle s ops).2 = countDisconnects ops := by
  induction ops generalizing s with
  | nil => rfl
  | cons op ops ih =>
    cases op with
    | connect =>
      simp only [runLifecycle, lifecycleStep, connectedCallback,
        countRemoves_append, ih]
      simp [countRemoves, countDisconnects]
    | disconnect =>
      simp only [runLifecycle, lifecycleStep, disconnectedCallback,
        countRemoves_append, ih]
      simp [countRemoves, countDisconnects]
      omega

/-- After a lifecycle sequence ending in a disconnect, the instance is
unsubscribed. -/
theorem runLifecycle_subscribed_of_last_disconnect (s : CardState)
    (ops : List Lifecycle) (h : ops.getLast? = some Lifecycle.disconnect) :
    (runLifecycle s ops).1.subscribed = false := by
  induction ops generalizing s with
  | nil => simp [List.getLast?] at h
  | cons op ops ih =>
    cases ops with
    | nil =>
      cases op with
      | connect => simp [List.getLast?] at h
      | disconnect => rfl
    | cons op2 rest =>
      rw [List.getLast?_cons_cons] at h
      exact ih _ h

end Helpers

/-- C1: calling `setConfig` twice in a row with identical extension and
password (display name may vary) yields no write and no apply from the
second call, at most one write and one apply in total, and exactly one
of each when the first call saw a credential change. -/
theorem setConfig_idempotent_pair (s : CardState)
    (c1 c2 : SIPUserCardConfig)
    (hext : c1.extension ≠ "") (hpw : c1.password ≠ "")
    (he : c2.extension = c1.extension) (hp : c2.password = c1.password) :
    ∃ s1 eff1 s2 eff2,
      setConfig c1 s = Except.ok (s1, eff1) ∧
      setConfig c2 s1 = Except.ok (s2, eff2) ∧
      countWrites eff2 = 0 ∧ countApplies eff2 = 0 ∧
      countWrites (eff1 ++ eff2) ≤ 1 ∧ countApplies (eff1 ++ eff2) ≤ 1 ∧
      (configChanged s.forceUser c1 = true →
        countWrites (eff1 ++ eff2) = 1 ∧
        countApplies (eff1 ++ eff2) = 1) := by
  have hext2 : c2.extension ≠ "" := by rw [he]; exact hext
  have hpw2 : c2.password ≠ "" := by rw [hp]; exact hpw
  by_cases hch : configChanged s.forceUser c1 = true
  · have hch2 : configChanged
        (some (⟨c1.extension, c1.password, c1.display_name⟩ : ForceUser))
        c2 = false := by
      simp [configChanged, he, hp]
    exact ⟨_, _, _, _, setConfig_ok_changed c1 s hext hpw hch,
      setConfig_ok_unchanged c2 _ hext2 hpw2 hch2,
      rfl, rfl, Nat.le_refl 1, Nat.le_refl 1, fun _ => ⟨rfl, rfl⟩⟩
  · simp only [Bool.not_eq_true] at hch
    obtain ⟨fu, hfu, hfe, hfp⟩ := (configChanged_false_iff _ _).mp hch
    have hch2 : configChanged
        ({ s with config := some c1 } : CardState).forceUser c2 = false := by
      simp [configChanged, hfu, he, hp, hfe, hfp]
    exact ⟨_, _, _, _, setConfig_ok_unchanged c1 s hext hpw hch,
      setConfig_ok_unchanged c2 _ hext2 hpw2 hch2,
      rfl, rfl, by decide, by decide,
      fun habs => absurd habs (by simp [hch])⟩

/-- Witness for C1: fresh store, extension 100 submitted twice (second
time with a display name). -/
theorem setConfig_idempotent_pair_witness :
    ∃ s1 eff1 s2 eff2,
      setConfig ⟨"100", "pw", none⟩ emptyState = Except.ok (s1, eff1) ∧
      setConfig ⟨"100", "pw", some "Lobby"⟩ s1 = Except.ok (s2, eff2) ∧
      countWrites eff2 = 0 ∧ countApplies eff2 = 0 ∧
      countWrites (eff1 ++ eff2) ≤ 1 ∧ countApplies (eff1 ++ eff2) ≤ 1 ∧
      (configChanged emptyState.forceUser ⟨"100", "pw", none⟩ = true →
        countWrites (eff1 ++ eff2) = 1 ∧
        countApplies (eff1 ++ eff2) = 1) :=
  setConfig_idempotent_pair emptyState ⟨"100", "pw", none⟩
    ⟨"100", "pw", some "Lobby"⟩ (by decide) (by decide) rfl rfl

/-- C2: on a valid config, `setConfig` performs a full-identity store
write followed by exactly one apply precisely when no identity is
stored or a credential differs, and performs neither when the stored
credentials match. -/
theorem setConfig_change_decision (s : CardState) (c : SIPUserCardConfig)
    (hext : c.extension ≠ "") (hpw : c.password ≠ "") :
    ∃ s' eff, setConfig c s = Except.ok (s', eff) ∧
      ((s.forceUser = none ∨
          ∃ fu, s.forceUser = some fu ∧
            (fu.extension ≠ c.extension ∨ fu.password ≠ c.password)) →
        eff = [Effect.write ⟨c.extension, c.password, c.display_name⟩,
               Effect.applyForceUser] ∧
        s'.forceUser = some ⟨c.extension, c.password, c.display_name⟩) ∧
      ((∃ fu, s.forceUser = some fu ∧ fu.extension = c.extension ∧
          fu.password = c.password) →
        eff = [] ∧ s'.forceUser = s.forceUser) := by
  by_cases hch : configChanged s.forceUser c = true
  · refine ⟨_, _, setConfig_ok_changed c s hext hpw hch,
      fun _ => ⟨rfl, rfl⟩, fun hsame => ?_⟩
    have hfalse : configChanged s.forceUser c = false :=
      (configChanged_false_iff _ _).mpr hsame
    rw [hch] at hfalse
    exact Bool.noConfusion hfalse
  · simp only [Bool.not_eq_true] at hch
    refine ⟨_, _, setConfig_ok_unchanged c s hext hpw hch,
      fun hdiff => ?_, fun _ => ⟨rfl, rfl⟩⟩
    have htrue : configChanged s.forceUser c = true :=
      (configChanged_true_iff _ _).mpr hdiff
    rw [hch] at htrue
    exact Bool.noConfusion htrue

/-- Witness for C2: a store holding extension 100 receives extension
200. -/
theorem setConfig_change_decision_witness :
    ∃ s' eff,
      setConfig ⟨"200", "pw", none⟩ storedState = Except.ok (s', eff) ∧
      ((storedState.forceUser = none ∨
          ∃ fu, storedState.forceUser = some fu ∧
            (fu.extension ≠ ("200" : String) ∨
             fu.password ≠ ("pw" : String))) →
        eff = [Effect.write ⟨"200", "pw", none⟩, Effect.applyForceUser] ∧
        s'.forceUser = some ⟨"200", "pw", none⟩) ∧
      ((∃ fu, storedState.forceUser = some fu ∧
          fu.extension = ("200" : String) ∧
          fu.password = ("pw" : String)) →
        eff = [] ∧ s'.forceUser = storedState.forceUser) :=
  setConfig_change_decision storedState ⟨"200", "pw", none⟩
    (by decide) (by decide)

/-- C3: a config with an empty extension or empty password makes
`setConfig` throw synchronously, the error names the missing field, and
the state (store slot included) is untouched with no effects emitted. -/
theorem setConfig_validation_atomic (s : CardState)
    (c : SIPUserCardConfig) (h : c.extension = "" ∨ c.password = "") :
    (∃ err, setConfig c s = Except.error err ∧
      ((err.message = "sip-user-card: \x27extension\x27 is required" ∧
          c.extension = "") ∨
       (err.message = "sip-user-card: \x27password\x27 is required" ∧
          c.password = ""))) ∧
    setConfigState c s = s ∧ setConfigEffects c s = [] := by
  refine ⟨?_, setConfigState_of_invalid s c h,
    setConfigEffects_of_invalid s c h⟩
  by_cases he : c.extension = ""
  · exact ⟨_, by rw [setConfig_eq_error s c h, if_pos he], Or.inl ⟨rfl, he⟩⟩
  · have hpw : c.password = "" := h.resolve_left he
    exact ⟨_, by rw [setConfig_eq_error s c h, if_neg he],
      Or.inr ⟨rfl, hpw⟩⟩

/-- Witness for C3: empty extension against the fresh store. -/
theorem setConfig_validation_atomic_witness :
    (∃ err, setConfig ⟨"", "x", none⟩ emptyState = Except.error err ∧
      ((err.message = "sip-user-card: \x27extension\x27 is required" ∧
          ("" : String) = "") ∨
       (err.message = "sip-user-card: \x27password\x27 is required" ∧
          ("x" : String) = ""))) ∧
    setConfigState ⟨"", "x", none⟩ emptyState = emptyState ∧
    setConfigEffects ⟨"", "x", none⟩ emptyState = [] :=
  setConfig_validation_atomic emptyState ⟨"", "x", none⟩ (Or.inl rfl)

/-- C4: when only the display name differs from the stored credentials,
`setConfig` emits no write and no apply, yet records the config locally
so the rendered name is the new display name; and every valid
`setConfig` records the config locally regardless of change
detection. -/
theorem setConfig_label_independence (s : CardState)
    (c : SIPUserCardConfig) (fu : ForceUser)
    (hext : c.extension ≠ "") (hpw : c.password ≠ "")
    (hfu : s.forceUser = some fu)
    (he : fu.extension = c.extension) (hp : fu.password = c.password) :
    setConfigEffects c s = [] ∧
    setConfigState c s = { s with config := some c } ∧
    (∀ reg, (render (setConfigState c s) reg).name =
      c.display_name.getD c.extension) ∧
    (∀ c' s', c'.extension ≠ ("" : String) → c'.password ≠ ("" : String) →
      (setConfigState c' s').config = some c') := by
  have hch : configChanged s.forceUser c = false :=
    (configChanged_false_iff _ _).mpr ⟨fu, hfu, he, hp⟩
  have hok := setConfig_ok_unchanged c s hext hpw hch
  refine ⟨by simp [setConfigEffects, hok], by simp [setConfigState, hok],
    fun reg => ?_, fun c' s' hext' hpw' =>
      setConfigState_config c' s' hext' hpw'⟩
  cases hd : c.display_name <;> simp [setConfigState, hok, render, hd]

/-- Witness for C4: stored identity 100/pw, resubmitted with display
name Lobby. -/
theorem setConfig_label_independence_witness :
    setConfigEffects ⟨"100", "pw", some "Lobby"⟩ storedState = [] ∧
    setConfigState ⟨"100", "pw", some "Lobby"⟩ storedState =
      { storedState with config := some ⟨"100", "pw", some "Lobby"⟩ } ∧
    (∀ reg, (render
        (setConfigState ⟨"100", "pw", some "Lobby"⟩ storedState)
        reg).name =
      (some "Lobby").getD ("100" : String)) ∧
    (∀ (c' : SIPUserCardConfig) s',
      c'.extension ≠ ("" : String) → c'.password ≠ ("" : String) →
      (setConfigState c' s').config = some c') :=
  setConfig_label_independence storedState ⟨"100", "pw", some "Lobby"⟩
    ⟨"100", "pw", none⟩ (by decide) (by decide) rfl rfl rfl

/-- C5: when the configured display name is absent, the rendered name
defaults to the extension. -/
theorem render_display_name_default (s : CardState)
    (c : SIPUserCardConfig) (reg : Bool)
    (hc : s.config = some c) (hd : c.display_name = none) :
    (render s reg).name = c.extension ∧
    (render s reg).text = c.extension ++ " (" ++ c.extension ++ ") — " ++
      (if reg then "Registered" else "Unregistered") := by
  constructor <;> simp [render, hc, hd]

/-- Witness for C5: configured state with no display name, registered. -/
theorem render_display_name_default_witness :
    (render configuredState true).name = ("100" : String) ∧
    (render configuredState true).text =
      ("100" : String) ++ " (" ++ "100" ++ ") — " ++
        (if true then "Registered" else "Unregistered") :=
  render_display_name_default configuredState ⟨"100", "pw", none⟩ true
    rfl rfl

/-- C6: `disconnectedCallback` leaves the persisted identity slot
unchanged and performs no store write and no apply. -/
theorem disconnected_frame_condition (s : CardState) :
    (disconnectedCallback s).1.forceUser = s.forceUser ∧
    countWrites (disconnectedCallback s).2 = 0 ∧
    countApplies (disconnectedCallback s).2 = 0 :=
  ⟨rfl, rfl, rfl⟩

/-- C7: over any lifecycle sequence, listener adds equal connect steps
and listener removals equal disconnect steps one-for-one, and a
sequence ending in a disconnect leaves no active subscription. -/
theorem subscription_pairing (s : CardState) (ops : List Lifecycle)
    (h : ops.getLast? = some Lifecycle.disconnect) :
    countAdds (runLifecycle s ops).2 = countConnects ops ∧
    countRemoves (runLifecycle s ops).2 = countDisconnects ops ∧
    (runLifecycle s ops).1.subscribed = false :=
  ⟨runLifecycle_countAdds s ops, runLifecycle_countRemoves s ops,
    runLifecycle_subscribed_of_last_disconnect s ops h⟩

/-- Witness for C7: two connect/disconnect rounds from the fresh
state. -/
theorem subscription_pairing_witness :
    countAdds (runLifecycle emptyState
      [Lifecycle.connect, Lifecycle.disconnect,
       Lifecycle.connect, Lifecycle.disconnect]).2 =
      countConnects [Lifecycle.connect, Lifecycle.disconnect,
        Lifecycle.connect, Lifecycle.disconnect] ∧
    countRemoves (runLifecycle emptyState
      [Lifecycle.connect, Lifecycle.disconnect,
       Lifecycle.connect, Lifecycle.disconnect]).2 =
      countDisconnects [Lifecycle.connect, Lifecycle.disconnect,
        Lifecycle.connect, Lifecycle.disconnect] ∧
    (runLifecycle emptyState
      [Lifecycle.connect, Lifecycle.disconnect,
       Lifecycle.connect, Lifecycle.disconnect]).1.subscribed = false :=
  subscription_pairing emptyState
    [Lifecycle.connect, Lifecycle.disconnect,
     Lifecycle.connect, Lifecycle.disconnect] (by decide)

/-- C8: with an active subscription, the zero-payload update event
schedules a re-render, and the subsequent render reads the live
registered flag at render time (the state caches no copy), so it
reflects the then-current value. -/
theorem notification_driven_refresh (s : CardState)
    (h : s.subscribed = true) :
    (dispatchSipcoreUpdate s).pendingRender = true ∧
    (∀ reg, (render (dispatchSipcoreUpdate s) reg).dot =
      (if reg then "registered" else "unregistered")) ∧
    (∀ reg, render (dispatchSipcoreUpdate s) reg = render s reg) := by
  refine ⟨by simp [dispatchSipcoreUpdate, h, updateHandler], ?_, ?_⟩ <;>
    intro reg <;> simp [dispatchSipcoreUpdate, h, updateHandler, render]

/-- Witness for C8: a subscribed instance receives the update event. -/
theorem notification_driven_refresh_witness :
    (dispatchSipcoreUpdate subscribedState).pendingRender = true ∧
    (∀ reg, (render (dispatchSipcoreUpdate subscribedState) reg).dot =
      (if reg then "registered" else "unregistered")) ∧
    (∀ reg, render (dispatchSipcoreUpdate subscribedState) reg =
      render subscribedState reg) :=
  notification_driven_refresh subscribedState rfl

/-- C9: `getStubConfig` has non-empty extension and password, so
`setConfig` never throws on it from any state. -/
theorem getStubConfig_no_error (s : CardState) :
    getStubConfig.extension ≠ ("" : String) ∧
    getStubConfig.password ≠ ("" : String) ∧
    ∃ s' eff, setConfig getStubConfig s = Except.ok (s', eff) := by
  refine ⟨by decide, by decide, ?_⟩
  rw [setConfig_ok_of_valid getStubConfig s (by decide) (by decide)]
  split
  · exact ⟨_, _, rfl⟩
  · exact ⟨_, _, rfl⟩

/-- C10: a `setConfig` call that fails validation leaves the locally
recorded config unchanged, so rendering still shows the previously
accepted configuration. -/
theorem setConfig_error_keeps_display (s : CardState)
    (c : SIPUserCardConfig) (h : c.extension = "" ∨ c.password = "") :
    (setConfigState c s).config = s.config ∧
    (∀ reg, render (setConfigState c s) reg = render s reg) := by
  have hstate := setConfigState_of_invalid s c h
  exact ⟨by rw [hstate], fun reg => by rw [hstate]⟩

/-- Witness for C10: an empty-password config against a configured
state. -/
theorem setConfig_error_keeps_display_witness :
    (setConfigState ⟨"x", "", none⟩ configuredState).config =
      configuredState.config ∧
    (∀ reg, render (setConfigState ⟨"x", "", none⟩ configuredState) reg =
      render configuredState reg) :=
  setConfig_error_keeps_display configuredState ⟨"x", "", none⟩
    (Or.inr rfl)

end SIPUserCard
